import Mathlib

/-!
Verification development for the Taskify client-side optimistic-mutation,
retry, and error-classification layer.

The definitions below are a shallow embedding of the JavaScript sources:
  - src/src/utils/errorHandler.js       (error classifier, messages, retry predicate)
  - src/src/utils/retryMechanism.js     (retry wrapper, delay calculation)
  - src/src/services/todoService.js     (handleApiError re-wrapping)
  - src/src/utils/operationStateManager.js (loading/concurrency state)
  - src/src/components/TodoList.jsx     (mutation coordinator: optimistic
    updates, rollbacks, retry dispatch, offline fallback)
  - DragDropList (reorder payload construction)

JavaScript idioms are modelled explicitly: `undefined`/absent fields are
`Option`, string truthiness is non-emptiness, object truthiness is `true`,
`Math.random()` is an explicit rational parameter, and timers / console
logging (which never affect the data computed here) are omitted.
-/

namespace Taskify

/-- Character-list prefix test, used to implement the JS `String.includes`. -/
def charsStartWith : List Char → List Char → Bool
  | [], _ => true
  | _ :: _, [] => false
  | a :: as, b :: bs => a == b && charsStartWith as bs

/-- Character-list substring test. -/
def charsContain (pat : List Char) : List Char → Bool
  | [] => charsStartWith pat []
  | b :: bs => charsStartWith pat (b :: bs) || charsContain pat bs

/-- JS `s.includes(pat)`. -/
def strIncludes (s pat : String) : Bool := charsContain pat.toList s.toList

/-- JS truthiness of a possibly-absent string (absent or empty is falsy). -/
def jsTruthyStr : Option String → Bool
  | none => false
  | some m => !(m == "")

/-- ERROR_TYPES from errorHandler.js. -/
inductive ErrorType where
  | network
  | validation
  | server
  | authentication
  | permission
  | unknown
deriving DecidableEq, Repr

/-- The `error.response` object: HTTP status plus the response-body message
fields read by `getErrorMessage` (`data.error.message` and `data.message`). -/
structure ErrResponse where
  status : Nat
  dataErrorMessage : Option String := none
  dataMessage : Option String := none
deriving DecidableEq, Repr

/-- A caught error as consumed by errorHandler.js: `code`, `message`,
`response`, and the `type` tag that `handleApiError` attaches (never read by
the classifier, kept for fidelity). -/
structure ApiError where
  code : Option String := none
  message : Option String := none
  response : Option ErrResponse := none
  errType : Option ErrorType := none
deriving DecidableEq, Repr

/-- ERROR_MESSAGES from errorHandler.js. -/
def ERROR_MESSAGES : ErrorType → String
  | ErrorType.network =>
      "Unable to connect to the server. Please check your internet connection and try again."
  | ErrorType.validation => "Please check your input and try again."
  | ErrorType.server => "Something went wrong on our end. Please try again in a moment."
  | ErrorType.authentication =>
      "Your session has expired. Please refresh the page and try again."
  | ErrorType.permission => "You don\x27t have permission to perform this action."
  | ErrorType.unknown => "An unexpected error occurred. Please try again."

/-- OPERATION_ERRORS from errorHandler.js (absent key yields `none`). -/
def OPERATION_ERRORS : String → Option String
  | "CREATE_TODO" => some "Failed to create task. Please try again."
  | "UPDATE_TODO" => some "Failed to update task. Please try again."
  | "DELETE_TODO" => some "Failed to delete task. Please try again."
  | "TOGGLE_COMPLETE" => some "Failed to update task completion status. Please try again."
  | "REORDER_TODOS" => some "Failed to reorder tasks. Please try again."
  | "FETCH_TODOS" => some "Failed to load tasks. Please try again."
  | "SEARCH_TODOS" => some "Failed to search tasks. Please try again."
  | _ => none

/-- The first check of `getErrorType` (errorHandler.js line 45):
`error.code === 'NETWORK_ERROR' || error.message?.includes('Network Error')`. -/
def hasNetworkSignal (e : ApiError) : Bool :=
  e.code == some "NETWORK_ERROR" ||
    (match e.message with
     | some m => strIncludes m "Network Error"
     | none => false)

/-- The trailing check of `getErrorType` (errorHandler.js line 66):
`error.code === 'ECONNREFUSED' || error.code === 'ETIMEDOUT'`. -/
def hasConnCode (e : ApiError) : Bool :=
  e.code == some "ECONNREFUSED" || e.code == some "ETIMEDOUT"

/-- JS truthiness of `error.response?.status`: absent response or status 0 is
falsy, so the status-based branch of `getErrorType` is skipped. -/
def statusOf (e : ApiError) : Option Nat :=
  match e.response with
  | some r => if r.status = 0 then none else some r.status
  | none => none

/-- `getErrorType` from errorHandler.js (lines 41-71), with the JS control
flow kept: network code/message first, then the truthy-status block (4xx
with 401/403/422-400 special cases, then >= 500), then the
ECONNREFUSED/ETIMEDOUT fallback, else unknown. `none` models a falsy
`error` argument. -/
def getErrorType (eo : Option ApiError) : ErrorType :=
  match eo with
  | none => ErrorType.unknown
  | some e =>
    if hasNetworkSignal e then ErrorType.network
    else
      match statusOf e with
      | some status =>
        if 400 ≤ status ∧ status < 500 then
          if status = 401 then ErrorType.authentication
          else if status = 403 then ErrorType.permission
          else if status = 422 ∨ status = 400 then ErrorType.validation
          else ErrorType.validation
        else if 500 ≤ status then ErrorType.server
        else if hasConnCode e then ErrorType.network
        else ErrorType.unknown
      | none =>
        if hasConnCode e then ErrorType.network
        else ErrorType.unknown

/-- `technicalTerms` from `isUserFriendlyMessage` in errorHandler.js. -/
def technicalTerms : List String :=
  ["undefined", "null", "NaN", "TypeError", "ReferenceError",
   "SyntaxError", "fetch", "XMLHttpRequest", "Promise",
   "async", "await", "callback", "stack trace"]

/-- `isUserFriendlyMessage` from errorHandler.js: the lowercased message
contains none of the lowercased technical terms. Lowercasing is performed
character-wise on the character list (`String.toLower` itself is not
kernel-reducible). -/
def isUserFriendlyMessage (message : String) : Bool :=
  !(technicalTerms.any fun term =>
    charsContain (term.toList.map Char.toLower) (message.toList.map Char.toLower))

/-- `getErrorMessage` from errorHandler.js (lines 79-106): pick the first
truthy candidate among `response.data.error.message`, `response.data.message`
and `error.message` (the latter only when it does not contain "Failed to");
use it when user-friendly, else the per-operation message, else the
per-category message. -/
def getErrorMessage (eo : Option ApiError) (operation : Option String) : String :=
  match eo with
  | none => ERROR_MESSAGES ErrorType.unknown
  | some e =>
    let cand1 : Option String := e.response.bind ErrResponse.dataErrorMessage
    let cand2 : Option String := e.response.bind ErrResponse.dataMessage
    let specificMessage : Option String :=
      if jsTruthyStr cand1 then cand1
      else if jsTruthyStr cand2 then cand2
      else if jsTruthyStr e.message && !(strIncludes (e.message.getD "") "Failed to") then
        e.message
      else none
    let operationFallback : String :=
      match operation with
      | some op =>
        match OPERATION_ERRORS op with
        | some opMsg => opMsg
        | none => ERROR_MESSAGES (getErrorType eo)
      | none => ERROR_MESSAGES (getErrorType eo)
    match specificMessage with
    | some m => if isUserFriendlyMessage m then m else operationFallback
    | none => operationFallback

/-- `isRecoverableError` from errorHandler.js (lines 175-180): recoverable
iff classified network or server. -/
def isRecoverableError (eo : Option ApiError) : Bool :=
  getErrorType eo == ErrorType.network || getErrorType eo == ErrorType.server

/-- `getRetryDelay` from errorHandler.js (lines 188-200): 0 for
non-recoverable errors, else `min(base * 2^(attempt-1), 30000)` with base
2000 for network and 1000 otherwise. Delays are rationals (milliseconds). -/
def getRetryDelay (eo : Option ApiError) (attemptNumber : Nat) : ℚ :=
  if isRecoverableError eo = false then 0
  else
    let baseDelay : ℚ := if getErrorType eo = ErrorType.network then 2000 else 1000
    min (baseDelay * 2 ^ (attemptNumber - 1)) 30000

/-- `handleApiError` from todoService.js (lines 13-26): builds a fresh Error
whose `message` is the user-friendly `getErrorMessage` output, copies over
`response`, and tags `type` with the original classification. The original
error object and context are kept only as `originalError`/`context` in the
source and are never read by the retry layer, so they are not modelled; note
that `code` is NOT copied onto the new error. -/
def handleApiError (eo : Option ApiError) (operation : String) : ApiError :=
  { code := none
    message := some (getErrorMessage eo (some operation))
    response := eo.bind ApiError.response
    errType := some (getErrorType eo) }

/-- Retry configuration (retryMechanism.js DEFAULT_RETRY_CONFIG shape).
The `retryCondition` function is passed separately to the runner. -/
structure RetryConfig where
  maxAttempts : Nat
  baseDelay : ℚ
  maxDelay : ℚ
  exponentialBase : ℚ
  jitter : Bool
deriving DecidableEq, Repr

/-- `calculateRetryDelay` from retryMechanism.js (lines 82-99): prefer the
error-specific `getRetryDelay` when positive (capped at `config.maxDelay`),
otherwise exponential backoff from the config with optional jitter
`delay * (0.5 + Math.random() * 0.5)`; `rand` models the `Math.random()`
draw in `[0, 1)`. -/
def calculateRetryDelay (e : ApiError) (attempt : Nat) (cfg : RetryConfig) (rand : ℚ) : ℚ :=
  let errorDelay := getRetryDelay (some e) attempt
  if 0 < errorDelay then min errorDelay cfg.maxDelay
  else
    let delay := cfg.baseDelay * cfg.exponentialBase ^ (attempt - 1)
    let jittered := if cfg.jitter then delay * (1 / 2 + rand * (1 / 2)) else delay
    min jittered cfg.maxDelay

/-- Observable outcome of running a wrapped operation: final result (the
error slot is `none` only on the unreachable `throw lastError` exit), number
of calls made to the underlying operation, and the list of inter-attempt
delays slept, in order. -/
structure RetryRun (V : Type) where
  result : Except (Option ApiError) V
  calls : Nat
  delays : List ℚ

/-- One step of the `while (attempt <= maxAttempts)` loop of
`createRetryWrapper` (retryMechanism.js lines 27-72). `op k` is the outcome
of the underlying operation on call number `k`; `cond` is
`retryConfig.retryCondition`; `rand k` is the `Math.random()` draw used for
the delay after attempt `k`. The fuel argument only forces termination and
is always sufficient. -/
def retryGo {V : Type} (cfg : RetryConfig) (cond : ApiError → Bool)
    (op : Nat → Except ApiError V) (rand : Nat → ℚ) :
    Nat → Nat → RetryRun V
  | _, 0 => ⟨Except.error none, 0, []⟩
  | attempt, fuel + 1 =>
    if attempt ≤ cfg.maxAttempts then
      match op attempt with
      | Except.ok v => ⟨Except.ok v, 1, []⟩
      | Except.error e =>
        if cond e = false then ⟨Except.error (some e), 1, []⟩
        else if cfg.maxAttempts ≤ attempt then ⟨Except.error (some e), 1, []⟩
        else
          let d := calculateRetryDelay e attempt cfg (rand attempt)
          let rest := retryGo cfg cond op rand (attempt + 1) fuel
          ⟨rest.result, rest.calls + 1, d :: rest.delays⟩
    else ⟨Except.error none, 0, []⟩

/-- Run a retry-wrapped operation: attempt counter starts at 1. -/
def runRetryWrapper {V : Type} (cfg : RetryConfig) (cond : ApiError → Bool)
    (op : Nat → Except ApiError V) (rand : Nat → ℚ) : RetryRun V :=
  retryGo cfg cond op rand 1 (cfg.maxAttempts + 1)

/-- `createTodoRetryMechanisms` configs (retryMechanism.js lines 106-121) as
instantiated by TodoList.jsx with options `{maxAttempts: 3, baseDelay: 1000}`;
defaults fill in `maxDelay` 30000, `exponentialBase` 2, `jitter` true. -/
def createRetryConfig : RetryConfig :=
  { maxAttempts := 2, baseDelay := 1000, maxDelay := 30000, exponentialBase := 2, jitter := true }

/-- Config used by `retryUpdate`. -/
def updateRetryConfig : RetryConfig :=
  { maxAttempts := 3, baseDelay := 1000, maxDelay := 30000, exponentialBase := 2, jitter := true }

/-- Config used by `retryDelete`. -/
def deleteRetryConfig : RetryConfig :=
  { maxAttempts := 3, baseDelay := 1000, maxDelay := 30000, exponentialBase := 2, jitter := true }

/-- Config used by `retryToggle`. -/
def toggleRetryConfig : RetryConfig :=
  { maxAttempts := 3, baseDelay := 1000, maxDelay := 30000, exponentialBase := 2, jitter := true }

/-- Config used by `retryReorder`. -/
def reorderRetryConfig : RetryConfig :=
  { maxAttempts := 2, baseDelay := 1000, maxDelay := 30000, exponentialBase := 2, jitter := true }

/-- Config used by `retrySearch`. -/
def searchRetryConfig : RetryConfig :=
  { maxAttempts := 2, baseDelay := 500, maxDelay := 30000, exponentialBase := 2, jitter := true }

/-- A client-side task record as manipulated by TodoList.jsx. `mid` embeds
the Mongo-style `_id` field used by `addTodo` (its temp todo has only `_id`),
`id` the server-assigned `id` used by toggle/update/delete/reorder; either
may be absent on a given object, so both are `Option`. -/
structure Todo where
  mid : Option String := none
  id : Option String := none
  text : String := ""
  completed : Bool := false
  createdAt : String := ""
  updatedAt : String := ""
  dueDate : Option String := none
  category : String := "Personal"
  priority : String := "Medium"
deriving DecidableEq, Repr

/-- addTodo optimistic update (TodoList.jsx line 371):
`setTodos(prevTodos => [tempTodo, ...prevTodos])`. -/
def addTodoOptimistic (temp : Todo) (todos : List Todo) : List Todo :=
  temp :: todos

/-- addTodo rollback (TodoList.jsx line 422):
`setTodos(prevTodos => prevTodos.filter(t => t._id !== tempTodo._id))`. -/
def addTodoRollback (temp : Todo) (todos : List Todo) : List Todo :=
  todos.filter fun t => t.mid != temp.mid

/-- addTodo success reconciliation (TodoList.jsx lines 396-398): replace the
temp todo by the server-created todo. -/
def addTodoReconcile (temp created : Todo) (todos : List Todo) : List Todo :=
  todos.map fun t => if t.mid == temp.mid then created else t

/-- toggleComplete optimistic update (TodoList.jsx lines 492-496): flips
`completed` AND stamps a fresh `updatedAt`. -/
def toggleOptimistic (todos : List Todo) (tid : String) (newCompleted : Bool)
    (nowIso : String) : List Todo :=
  todos.map fun t =>
    if t.id == some tid then { t with completed := newCompleted, updatedAt := nowIso } else t

/-- toggleComplete rollback (TodoList.jsx lines 550-554): restores only
`completed`, leaving every other field (in particular `updatedAt`) as the
optimistic update left it. -/
def toggleRollback (todos : List Todo) (tid : String) (originalCompleted : Bool) : List Todo :=
  todos.map fun t =>
    if t.id == some tid then { t with completed := originalCompleted } else t

/-- handleUpdateTodo optimistic update (TodoList.jsx lines 654-656). -/
def updateOptimistic (todos : List Todo) (tid : String) (newText : String) : List Todo :=
  todos.map fun t => if t.id == some tid then { t with text := newText } else t

/-- handleUpdateTodo rollback (TodoList.jsx lines 676-678): put the
snapshotted `originalTodo` back at every position whose id matches. -/
def updateRollback (todos : List Todo) (tid : String) (originalTodo : Todo) : List Todo :=
  todos.map fun t => if t.id == some tid then originalTodo else t

/-- handleDeleteTodo optimistic update (TodoList.jsx line 599):
`prevTodos.filter(t => t.id !== id)`. -/
def deleteOptimistic (todos : List Todo) (tid : String) : List Todo :=
  todos.filter fun t => t.id != some tid

/-- handleDeleteTodo rollback (TodoList.jsx lines 624-628): splice the
snapshotted todo back at its original index. -/
def deleteRollback (todos : List Todo) (originalIndex : Nat) (todoToDelete : Todo) : List Todo :=
  todos.insertIdx originalIndex todoToDelete

/-- `todos.findIndex(t => t.id === id)` (TodoList.jsx line 589). -/
def deleteOriginalIndex (todos : List Todo) (tid : String) : Nat :=
  todos.findIdx fun t => t.id == some tid

/-- handleReorderTodos optimistic update (TodoList.jsx line 700):
`setTodos(reorderedTodos)`. -/
def reorderOptimistic (reorderedTodos : List Todo) : List Todo :=
  reorderedTodos

/-- handleReorderTodos rollback (TodoList.jsx line 718): restore the
snapshot `originalTodos = [...todos]` taken before the optimistic update. -/
def reorderRollback (originalTodos : List Todo) : List Todo :=
  originalTodos

/-- The reorder payload (TodoList.jsx lines 703-706):
`reorderedTodos.map((todo, index) => ({id: todo.id, order: index}))`. -/
def buildTodoOrders (reorderedTodos : List Todo) : List (Option String × Nat) :=
  reorderedTodos.mapIdx fun index todo => (todo.id, index)

/-- The hard-coded offline placeholder task of loadTodos
(TodoList.jsx lines 267-278). -/
def mockOfflineTodo (nowIso : String) : Todo :=
  { mid := some "1", id := none, text := "Sample todo (offline mode)", completed := false,
    createdAt := nowIso, updatedAt := nowIso, dueDate := none,
    category := "Personal", priority := "Medium" }

/-- Outcome of the loadTodos catch block: resulting task list and whether
the error state was set. -/
structure LoadFailureOutcome where
  todos : List Todo
  errorSet : Bool
deriving DecidableEq, Repr

/-- The loadTodos catch block (TodoList.jsx lines 253-281):
`handleOperationError` always fires, then the task list is replaced by the
single mock todo exactly when `err.message === 'API Error' ||
err.code === 'NETWORK_ERROR'`, else left untouched. -/
def loadTodosOnFailure (todos : List Todo) (err : ApiError) (nowIso : String) :
    LoadFailureOutcome :=
  if err.message == some "API Error" || err.code == some "NETWORK_ERROR" then
    ⟨[mockOfflineTodo nowIso], true⟩
  else
    ⟨todos, true⟩

/-- A field value of the `operationLoading` bag: a boolean for singleton
categories, a set of in-flight ids for id-scoped categories. -/
inductive LoadVal where
  | flag (b : Bool)
  | idSet (s : Finset String)
deriving DecidableEq

/-- The `operationLoading` React state (TodoList.jsx lines 39-46). -/
structure OperationLoading where
  creating : LoadVal := LoadVal.flag false
  updating : LoadVal := LoadVal.idSet ∅
  deleting : LoadVal := LoadVal.idSet ∅
  toggling : LoadVal := LoadVal.idSet ∅
  reordering : LoadVal := LoadVal.flag false
  searching : LoadVal := LoadVal.flag false
deriving DecidableEq

/-- Dynamic key read `operationLoading[operation]`; an unknown key is JS
`undefined`, i.e. falsy, rendered as `flag false`. -/
def getLoadField (st : OperationLoading) (operation : String) : LoadVal :=
  if operation = "creating" then st.creating
  else if operation = "updating" then st.updating
  else if operation = "deleting" then st.deleting
  else if operation = "toggling" then st.toggling
  else if operation = "reordering" then st.reordering
  else if operation = "searching" then st.searching
  else LoadVal.flag false

/-- Dynamic key write `{ ...prev, [operation]: v }` for the six known keys
(no call site uses any other key). -/
def setLoadField (st : OperationLoading) (operation : String) (v : LoadVal) :
    OperationLoading :=
  if operation = "creating" then { st with creating := v }
  else if operation = "updating" then { st with updating := v }
  else if operation = "deleting" then { st with deleting := v }
  else if operation = "toggling" then { st with toggling := v }
  else if operation = "reordering" then { st with reordering := v }
  else if operation = "searching" then { st with searching := v }
  else st

/-- JS truthiness of a loading-bag value (a Set object is always truthy). -/
def jsTruthyLoad : LoadVal → Bool
  | LoadVal.flag b => b
  | LoadVal.idSet _ => true

/-- The state-update part of `setOperationLoadingWithTimeout`
(operationStateManager.js lines 49-122): for updating/deleting/toggling with
an id, copy the set and insert/delete the id; otherwise write the boolean.
Timer bookkeeping (`activeTimeouts`, `operationStartTimes`, `setTimeout`)
and console logging do not touch `operationLoading` on this path and are
omitted. -/
def setOperationLoadingWithTimeout (operation : String) (value : Bool)
    (id : Option String) (st : OperationLoading) : OperationLoading :=
  match id with
  | some i =>
    if operation = "updating" ∨ operation = "deleting" ∨ operation = "toggling" then
      let prevSet : Finset String :=
        match getLoadField st operation with
        | LoadVal.idSet s => s
        | LoadVal.flag _ => ∅
      setLoadField st operation
        (LoadVal.idSet (if value then insert i prevSet else prevSet.erase i))
    else setLoadField st operation (LoadVal.flag value)
  | none => setLoadField st operation (LoadVal.flag value)

/-- `isOperationLoading` (operationStateManager.js lines 131-150). -/
def isOperationLoading (operation : String) (id : Option String)
    (st : OperationLoading) : Bool :=
  match id with
  | some i =>
    if operation = "updating" ∨ operation = "deleting" ∨ operation = "toggling" then
      match getLoadField st operation with
      | LoadVal.idSet s => decide (i ∈ s)
      | LoadVal.flag _ => false
    else jsTruthyLoad (getLoadField st operation)
  | none => jsTruthyLoad (getLoadField st operation)

/-- `maxConcurrent` as configured in TodoList.jsx lines 58-65, with the
`|| 1` default of operationStateManager.js line 159. -/
def maxConcurrentTL (operation : String) : Nat :=
  if operation = "creating" then 1
  else if operation = "updating" then 5
  else if operation = "deleting" then 5
  else if operation = "toggling" then 10
  else if operation = "reordering" then 1
  else if operation = "searching" then 1
  else 1

/-- `canProceedWithOperation` (operationStateManager.js lines 158-187). -/
def canProceedWithOperation (operation : String) (st : OperationLoading) : Bool :=
  if operation = "updating" ∨ operation = "deleting" ∨ operation = "toggling" then
    decide
      ((match getLoadField st operation with
        | LoadVal.idSet s => s.card
        | LoadVal.flag _ => 0) < maxConcurrentTL operation)
  else !(jsTruthyLoad (getLoadField st operation))

/-- Observable outcome of one `addTodo` invocation: the resulting task
list, whether the create REST call was issued, and the user-visible error
message surfaced by `handleOperationError`, if any. -/
structure AddTodoOutcome where
  todos : List Todo
  apiCalled : Bool
  surfacedError : Option String
deriving DecidableEq, Repr

/-- The `addTodo` flow of TodoList.jsx (lines 335-433) with the retry-wrapped
REST call's final outcome supplied as `apiResult`: the guard
`isOperationLoading('creating') || !canProceedWithOperation('creating')`
returns silently; otherwise the optimistic prepend happens, then either the
temp todo is replaced by the created one (success) or filtered out again and
a CREATE_TODO error surfaced (failure). -/
def addTodoRun (st : OperationLoading) (todos : List Todo) (temp : Todo)
    (apiResult : Except ApiError Todo) : AddTodoOutcome :=
  if isOperationLoading "creating" none st || !(canProceedWithOperation "creating" st) then
    ⟨todos, false, none⟩
  else
    match apiResult with
    | Except.ok created =>
      ⟨addTodoReconcile temp created (addTodoOptimistic temp todos), true, none⟩
    | Except.error e =>
      ⟨addTodoRollback temp (addTodoOptimistic temp todos), true,
        some (getErrorMessage (some e) (some "CREATE_TODO"))⟩

/-- What the body of `retryLastOperation` dispatches to. `warnUnknown`
models the `default:` branch, which only logs
`console.warn('Unknown operation for retry', ...)` and re-executes nothing. -/
inductive RetryAction where
  | runLoadTodos
  | runHandleSearch
  | warnUnknown
deriving DecidableEq, Repr

/-- `retryLastOperation` from TodoList.jsx (lines 154-176): early return when
`!errorState.canRetry || !errorState.operation`, else a switch on the
operation name with cases only for FETCH_TODOS and SEARCH_TODOS. -/
def retryLastOperation (canRetry : Bool) (operation : Option String) : Option RetryAction :=
  if !canRetry || !(jsTruthyStr operation) then none
  else
    match operation with
    | some "FETCH_TODOS" => some RetryAction.runLoadTodos
    | some "SEARCH_TODOS" => some RetryAction.runHandleSearch
    | _ => some RetryAction.warnUnknown

/-- The `canRetry` flag computed by `handleOperationError`
(TodoList.jsx line 135): `standardError.type === 'network' ||
standardError.type === 'server'`, where `standardError.type` is
`getErrorType` of the caught error. -/
def handleOperationErrorCanRetry (eo : Option ApiError) : Bool :=
  getErrorType eo == ErrorType.network || getErrorType eo == ErrorType.server

/-! ## Helper lemmas -/

/-- Unfolding lemma for one iteration of the retry loop. -/
theorem retryGo_succ {V : Type} (cfg : RetryConfig) (cond : ApiError → Bool)
    (op : Nat → Except ApiError V) (rand : Nat → ℚ) (attempt fuel : Nat) :
    retryGo cfg cond op rand attempt (fuel + 1) =
      if attempt ≤ cfg.maxAttempts then
        match op attempt with
        | Except.ok v => ⟨Except.ok v, 1, []⟩
        | Except.error e =>
          if cond e = false then ⟨Except.error (some e), 1, []⟩
          else if cfg.maxAttempts ≤ attempt then ⟨Except.error (some e), 1, []⟩
          else
            let d := calculateRetryDelay e attempt cfg (rand attempt)
            let rest := retryGo cfg cond op rand (attempt + 1) fuel
            ⟨rest.result, rest.calls + 1, d :: rest.delays⟩
      else ⟨Except.error none, 0, []⟩ := rfl

/-- `findIdx` of a list whose first match sits right after a prefix of
non-matches is the length of that prefix. -/
theorem findIdx_after_prefix (p : Todo → Bool) (l₁ l₂ : List Todo) (x : Todo)
    (h₁ : ∀ t ∈ l₁, p t = false) (hx : p x = true) :
    (l₁ ++ x :: l₂).findIdx p = l₁.length := by
  induction l₁ with
  | nil => simp [List.findIdx_cons, hx]
  | cons a as ih =>
    have ha : p a = false := h₁ a (by simp)
    have ih2 := ih fun t ht => h₁ t (by simp [ht])
    simp [List.findIdx_cons, ha, ih2]

/-- Inserting at the length of the left part of an append splices the
element between the parts. -/
theorem insertIdx_between (l₁ l₂ : List Todo) (a : Todo) :
    (l₁ ++ l₂).insertIdx l₁.length a = l₁ ++ a :: l₂ := by
  induction l₁ with
  | nil => rfl
  | cons x xs ih => simpa [List.insertIdx_succ_cons] using ih

/-! ## Claims -/

/-- C3 counterexample: the claim predicts that for a network-classified
error at attempt 1 under a no-jitter config with baseDelay 1000,
exponentialBase 2 and maxDelay 30000, the slept delay is
min(1000 * 2^0 * 1, 30000) = 1000; `calculateRetryDelay` actually returns
2000, because the error-specific `getRetryDelay` (network base 2000) takes
precedence over the configured formula. -/
theorem calculateRetryDelay_config_formula_cex :
    calculateRetryDelay { code := some "NETWORK_ERROR" } 1
        { maxAttempts := 3, baseDelay := 1000, maxDelay := 30000,
          exponentialBase := 2, jitter := false } 0 = 2000 ∧
    min ((1000 : ℚ) * 2 ^ (1 - 1) * 1) 30000 = 1000 ∧ (2000 : ℚ) ≠ 1000 := by
  refine ⟨?_, by norm_num, by norm_num⟩
  norm_num [calculateRetryDelay, getRetryDelay, isRecoverableError, getErrorType,
    hasNetworkSignal]

/-- C3 amended: the delay before the next attempt is the error-specific
delay min((network ? 2000 : 1000) * 2^(attempt-1), 30000), capped again at
the configured maxDelay, whenever the error is classified network or server;
the configured baseDelay/exponentialBase/jitter formula applies only to
errors that are not classified network or server (which the default retry
predicate never retries). -/
theorem calculateRetryDelay_amended (e : ApiError) (attempt : Nat)
    (cfg : RetryConfig) (rand : ℚ) :
    calculateRetryDelay e attempt cfg rand =
      if isRecoverableError (some e) then
        min (min ((if getErrorType (some e) = ErrorType.network then (2000 : ℚ) else 1000) *
            2 ^ (attempt - 1)) 30000) cfg.maxDelay
      else
        min (cfg.baseDelay * cfg.exponentialBase ^ (attempt - 1) *
            (if cfg.jitter then 1 / 2 + rand * (1 / 2) else 1)) cfg.maxDelay := by
  unfold calculateRetryDelay getRetryDelay
  cases hrec : isRecoverableError (some e) with
  | false =>
    simp only [hrec, if_pos rfl, Bool.false_eq_true, if_false, lt_self_iff_false]
    cases hj : cfg.jitter <;> simp [mul_one]
  | true =>
    have hbase : (0 : ℚ) <
        (if getErrorType (some e) = ErrorType.network then (2000 : ℚ) else 1000) := by
      split_ifs <;> norm_num
    have hpos : (0 : ℚ) <
        min ((if getErrorType (some e) = ErrorType.network then (2000 : ℚ) else 1000) *
          2 ^ (attempt - 1)) 30000 := by
      refine lt_min (by positivity) (by norm_num)
    simp only [hrec, Bool.true_eq_false, if_false, if_pos hpos, if_pos rfl]
    simp

/-- C5 counterexample: when a mutating operation failed terminally with a
retryable error (canRetry = true), the Try Again dispatch resolves every
mutating operation kind to the warn-only default branch, which re-executes
nothing. -/
theorem retryLastOperation_mutations_cex :
    retryLastOperation true (some "CREATE_TODO") = some RetryAction.warnUnknown ∧
    retryLastOperation true (some "UPDATE_TODO") = some RetryAction.warnUnknown ∧
    retryLastOperation true (some "DELETE_TODO") = some RetryAction.warnUnknown ∧
    retryLastOperation true (some "TOGGLE_COMPLETE") = some RetryAction.warnUnknown ∧
    retryLastOperation true (some "REORDER_TODOS") = some RetryAction.warnUnknown := by
  decide

/-- C5 amended: the error state enables Try Again exactly for
network/server-classified errors, and `retryLastOperation` re-executes only
FETCH_TODOS (via loadTodos) and SEARCH_TODOS (via handleSearch); every other
operation kind reaches the warn-only default branch, and nothing runs when
canRetry is false. -/
theorem retryLastOperation_amended :
    (∀ eo : Option ApiError, handleOperationErrorCanRetry eo = true ↔
        (getErrorType eo = ErrorType.network ∨ getErrorType eo = ErrorType.server)) ∧
    retryLastOperation true (some "FETCH_TODOS") = some RetryAction.runLoadTodos ∧
    retryLastOperation true (some "SEARCH_TODOS") = some RetryAction.runHandleSearch ∧
    retryLastOperation true (some "CREATE_TODO") = some RetryAction.warnUnknown ∧
    retryLastOperation true (some "UPDATE_TODO") = some RetryAction.warnUnknown ∧
    retryLastOperation true (some "DELETE_TODO") = some RetryAction.warnUnknown ∧
    retryLastOperation true (some "TOGGLE_COMPLETE") = some RetryAction.warnUnknown ∧
    retryLastOperation true (some "REORDER_TODOS") = some RetryAction.warnUnknown ∧
    (∀ op : Option String, retryLastOperation false op = none) := by
  refine ⟨?_, by decide, by decide, by decide, by decide, by decide, by decide, by decide, ?_⟩
  · intro eo
    simp [handleOperationErrorCanRetry]
  · intro op
    simp [retryLastOperation]

/-- C6: an addTodo invocation made while the creating flag is already true
returns without modifying the task list, without issuing the create REST
call, and without surfacing any error. -/
theorem addTodo_blocked_when_creating (st : OperationLoading) (todos : List Todo)
    (temp : Todo) (apiResult : Except ApiError Todo)
    (h : st.creating = LoadVal.flag true) :
    addTodoRun st todos temp apiResult = ⟨todos, false, none⟩ := by
  simp [addTodoRun, isOperationLoading, getLoadField, jsTruthyLoad, h]

/-- Witness for C6 at a concrete blocked state. -/
theorem addTodo_blocked_when_creating_witness :
    addTodoRun { creating := LoadVal.flag true } [] {} (Except.ok {}) =
      ⟨[], false, none⟩ :=
  addTodo_blocked_when_creating _ _ _ _ rfl

/-- C9: releasing a slot that was never acquired — erasing an id absent
from an id-scoped category's set, or setting an already-false singleton flag
to false — leaves the operationLoading state structurally unchanged. -/
theorem release_without_acquire_noop :
    (∀ (st : OperationLoading) (op i : String) (s : Finset String),
        (op = "updating" ∨ op = "deleting" ∨ op = "toggling") →
        getLoadField st op = LoadVal.idSet s → i ∉ s →
        setOperationLoadingWithTimeout op false (some i) st = st) ∧
    (∀ (st : OperationLoading) (op : String),
        (op = "creating" ∨ op = "reordering" ∨ op = "searching") →
        getLoadField st op = LoadVal.flag false →
        setOperationLoadingWithTimeout op false none st = st) := by
  constructor
  · rintro st op i s (rfl | rfl | rfl) hf hi <;> cases st <;>
      simp_all [setOperationLoadingWithTimeout, getLoadField, setLoadField,
        Finset.erase_eq_of_not_mem hi]
  · rintro st op (rfl | rfl | rfl) hf <;> cases st <;>
      simp_all [setOperationLoadingWithTimeout, getLoadField, setLoadField]

/-- Witness for C9 at concrete states. -/
theorem release_without_acquire_noop_witness :
    setOperationLoadingWithTimeout "toggling" false (some "b")
        { toggling := LoadVal.idSet {"a"} } = { toggling := LoadVal.idSet {"a"} } ∧
    setOperationLoadingWithTimeout "creating" false none ({} : OperationLoading) =
      ({} : OperationLoading) :=
  ⟨release_without_acquire_noop.1 _ "toggling" "b" {"a"}
      (Or.inr (Or.inr rfl)) rfl (by decide),
   release_without_acquire_noop.2 _ "creating" (Or.inl rfl) rfl⟩

/-- C10: the loadTodos catch block always sets the error state; it replaces
the whole task list by the single hard-coded offline placeholder exactly
when the caught error's message is 'API Error' or its code is
'NETWORK_ERROR', and leaves the task list untouched for every other fetch
failure. -/
theorem loadTodos_failure_fallback (todos : List Todo) (err : ApiError) (nowIso : String) :
    (err.message = some "API Error" ∨ err.code = some "NETWORK_ERROR" →
      loadTodosOnFailure todos err nowIso = ⟨[mockOfflineTodo nowIso], true⟩) ∧
    (¬(err.message = some "API Error" ∨ err.code = some "NETWORK_ERROR") →
      loadTodosOnFailure todos err nowIso = ⟨todos, true⟩) := by
  constructor <;> intro h <;>
    simp_all [loadTodosOnFailure, not_or]

/-- Witness for C10 at a matching and a non-matching error. -/
theorem loadTodos_failure_fallback_witness :
    loadTodosOnFailure [] { message := some "API Error" } "t" =
      ⟨[mockOfflineTodo "t"], true⟩ ∧
    loadTodosOnFailure [] { message := some "boom" } "t" = ⟨[], true⟩ :=
  ⟨(loadTodos_failure_fallback [] _ "t").1 (Or.inl rfl),
   (loadTodos_failure_fallback [] _ "t").2 (by decide)⟩

/-- C8 counterexample: the claim's priority order fails on the code however
the "explicit network-failure signal (no HTTP response received)" gloss is
read. An error carrying code NETWORK_ERROR together with a received 401
response is classified network (the claim's no-response signal would demand
authentication), while an error carrying code ECONNREFUSED together with a
404 response is classified validation (a response-insensitive signal would
demand network). -/
theorem getErrorType_priority_cex :
    getErrorType (some { code := some "NETWORK_ERROR", response := some { status := 401 } }) =
      ErrorType.network ∧
    getErrorType (some { code := some "ECONNREFUSED", response := some { status := 404 } }) =
      ErrorType.validation ∧
    ErrorType.network ≠ ErrorType.authentication ∧
    ErrorType.validation ≠ ErrorType.network := by
  decide

/-- C8 amended: the classifier's checks, in priority order, are: (1) code
NETWORK_ERROR or a message containing "Network Error" yields network even
when an HTTP response is present; (2) a truthy (present, nonzero) HTTP
status: 401 authentication, 403 permission, every other 400-499 (422, 400,
404 included) validation, >= 500 server; (3) for statuses outside those
ranges, or no usable status, code ECONNREFUSED or ETIMEDOUT yields network;
(4) otherwise, and for an absent error, unknown. -/
theorem getErrorType_classification (e : ApiError) :
    getErrorType none = ErrorType.unknown ∧
    (hasNetworkSignal e = true → getErrorType (some e) = ErrorType.network) ∧
    (hasNetworkSignal e = false → ∀ r : ErrResponse, e.response = some r →
      (r.status = 401 → getErrorType (some e) = ErrorType.authentication) ∧
      (r.status = 403 → getErrorType (some e) = ErrorType.permission) ∧
      (400 ≤ r.status → r.status < 500 → r.status ≠ 401 → r.status ≠ 403 →
        getErrorType (some e) = ErrorType.validation) ∧
      (500 ≤ r.status → getErrorType (some e) = ErrorType.server) ∧
      (1 ≤ r.status → r.status < 400 →
        getErrorType (some e) =
          if hasConnCode e then ErrorType.network else ErrorType.unknown)) ∧
    (hasNetworkSignal e = false → statusOf e = none →
      getErrorType (some e) =
        if hasConnCode e then ErrorType.network else ErrorType.unknown) := by
  refine ⟨rfl, ?_, ?_, ?_⟩
  · intro hn
    simp [getErrorType, hn]
  · intro hn r hr
    have hst : statusOf e = if r.status = 0 then none else some r.status := by
      simp [statusOf, hr]
    refine ⟨?_, ?_, ?_, ?_, ?_⟩
    · intro h401
      simp [getErrorType, hn, hst, h401]
    · intro h403
      simp [getErrorType, hn, hst, h403]
    · intro h4 h5 hne1 hne3
      have h0 : r.status ≠ 0 := by omega
      simp only [getErrorType, hn, Bool.false_eq_true, if_false, hst, h0, if_neg h0]
      rw [if_pos ⟨h4, h5⟩, if_neg hne1, if_neg hne3]
      split <;> rfl
    · intro h5
      have h0 : r.status ≠ 0 := by omega
      have hlt : ¬(400 ≤ r.status ∧ r.status < 500) := by omega
      simp only [getErrorType, hn, Bool.false_eq_true, if_false, hst, if_neg h0]
      rw [if_neg hlt, if_pos h5]
    · intro h1 h4
      have h0 : r.status ≠ 0 := by omega
      have hlt : ¬(400 ≤ r.status ∧ r.status < 500) := by omega
      have h5 : ¬(500 ≤ r.status) := by omega
      simp only [getErrorType, hn, Bool.false_eq_true, if_false, hst, if_neg h0]
      rw [if_neg hlt, if_neg h5]
  · intro hn hst
    simp [getErrorType, hn, hst]

/-- Witness for C8 amended at concrete errors for each branch. -/
theorem getErrorType_classification_witness :
    getErrorType (some { response := some { status := 401 } }) = ErrorType.authentication ∧
    getErrorType (some { response := some { status := 404 } }) = ErrorType.validation ∧
    getErrorType (some { response := some { status := 503 } }) = ErrorType.server ∧
    getErrorType (some { code := some "ETIMEDOUT" }) = ErrorType.network :=
  ⟨((getErrorType_classification { response := some { status := 401 } }).2.2.1
      (by decide) { status := 401 } rfl).1 rfl,
   (((getErrorType_classification { response := some { status := 404 } }).2.2.1
      (by decide) { status := 404 } rfl).2.2.1 (by decide) (by decide) (by decide) (by decide)),
   (((getErrorType_classification { response := some { status := 503 } }).2.2.1
      (by decide) { status := 503 } rfl).2.2.2.1 (by decide)),
   ((getErrorType_classification { code := some "ETIMEDOUT" }).2.2.2
      (by decide) rfl).trans (by decide)⟩

/-- C7: for a reorder submission the todoOrders payload pairs every task id
with its 0-based index in the permuted sequence, its order values are
exactly 0..N-1 in order, and distinct task ids occur exactly once each. -/
theorem reorder_payload_dense (reorderedTodos : List Todo) :
    (buildTodoOrders reorderedTodos).map Prod.fst = reorderedTodos.map Todo.id ∧
    (buildTodoOrders reorderedTodos).map Prod.snd = List.range reorderedTodos.length ∧
    ((reorderedTodos.map Todo.id).Nodup →
      ((buildTodoOrders reorderedTodos).map Prod.fst).Nodup) := by
  have hfst : (buildTodoOrders reorderedTodos).map Prod.fst = reorderedTodos.map Todo.id := by
    rw [buildTodoOrders, List.mapIdx_eq_enum_map, List.map_map]
    have hfn : (Prod.fst ∘ Function.uncurry fun index todo => (todo.id, index)) =
        (Todo.id ∘ (Prod.snd : Nat × Todo → Todo)) := rfl
    rw [hfn, ← List.map_map, List.enum_map_snd]
  refine ⟨hfst, ?_, ?_⟩
  · rw [buildTodoOrders, List.mapIdx_eq_enum_map, List.map_map]
    have hfn : (Prod.snd ∘ Function.uncurry fun index todo => (todo.id, index)) =
        (Prod.fst : Nat × Todo → Nat) := rfl
    rw [hfn, List.enum_map_fst]
  · intro h
    rw [hfst]
    exact h

/-- Witness for C7 on a concrete three-task permutation. -/
theorem reorder_payload_dense_witness :
    ((buildTodoOrders
        [{ id := some "c" }, { id := some "a" }, { id := some "b" }]).map Prod.fst).Nodup ∧
    (buildTodoOrders
        [{ id := some "c" }, { id := some "a" }, { id := some "b" }]).map Prod.snd =
      List.range 3 :=
  ⟨(reorder_payload_dense _).2.2 (by decide),
   (reorder_payload_dense [{ id := some "c" }, { id := some "a" }, { id := some "b" }]).2.1⟩

/-- C1 counterexample: after a failed toggleComplete the rolled-back list is
not structurally equal to the pre-mutation list — the affected task keeps
the optimistic `updatedAt` stamp. -/
theorem toggle_rollback_not_exact_cex :
    toggleRollback
        (toggleOptimistic
          [{ id := some "a", text := "x", createdAt := "t0", updatedAt := "t0" }]
          "a" true "t1")
        "a" false ≠
      [{ id := some "a", text := "x", createdAt := "t0", updatedAt := "t0" }] := by
  decide

/-- C1 amended: on terminal failure the rollback restores the task list
exactly for create (when no pre-existing task shares the temp `_id`), update
and delete (when the target id is unambiguous) and reorder; for
toggleComplete the rollback restores every field except `updatedAt`, which
keeps the timestamp written by the optimistic update. -/
theorem rollback_restores_amended :
    (∀ (temp : Todo) (todos : List Todo),
        (∀ t ∈ todos, t.mid ≠ temp.mid) →
        addTodoRollback temp (addTodoOptimistic temp todos) = todos) ∧
    (∀ (todos : List Todo) (tid newText : String) (tau : Todo),
        (∀ t ∈ todos, t.id = some tid → t = tau) →
        updateRollback (updateOptimistic todos tid newText) tid tau = todos) ∧
    (∀ (l₁ l₂ : List Todo) (tid : String) (tau : Todo),
        tau.id = some tid →
        (∀ t ∈ l₁, t.id ≠ some tid) → (∀ t ∈ l₂, t.id ≠ some tid) →
        deleteRollback (deleteOptimistic (l₁ ++ tau :: l₂) tid)
          (deleteOriginalIndex (l₁ ++ tau :: l₂) tid) tau = l₁ ++ tau :: l₂) ∧
    (∀ originalTodos : List Todo, reorderRollback originalTodos = originalTodos) ∧
    (∀ (todos : List Todo) (tid : String) (tau : Todo) (b : Bool) (nowIso : String),
        (∀ t ∈ todos, t.id = some tid → t = tau) →
        toggleRollback (toggleOptimistic todos tid b nowIso) tid tau.completed =
          todos.map fun t =>
            if t.id == some tid then { t with updatedAt := nowIso } else t) := by
  refine ⟨?_, ?_, ?_, fun _ => rfl, ?_⟩
  · intro temp todos h
    simp only [addTodoRollback, addTodoOptimistic, List.filter_cons, bne_self_eq_false,
      Bool.false_eq_true, if_false]
    rw [List.filter_eq_self]
    intro a ha
    simpa using h a ha
  · intro todos tid newText tau h
    have hmap : updateRollback (updateOptimistic todos tid newText) tid tau =
        todos.map id := by
      rw [updateRollback, updateOptimistic, List.map_map]
      refine List.map_congr_left ?_
      intro t ht
      by_cases hid : t.id = some tid
      · have hts := h t ht hid
        subst hts
        cases t
        simp_all [Function.comp]
      · cases t
        simp_all [Function.comp]
    simpa using hmap
  · intro l₁ l₂ tid tau htau h₁ h₂
    have hopt : deleteOptimistic (l₁ ++ tau :: l₂) tid = l₁ ++ l₂ := by
      rw [deleteOptimistic, List.filter_append, List.filter_cons]
      have htauf : (tau.id != some tid) = false := by simp [htau]
      rw [htauf]
      simp only [Bool.false_eq_true, if_false]
      congr 1
      · rw [List.filter_eq_self]
        intro a ha
        simpa using h₁ a ha
      · rw [List.filter_eq_self]
        intro a ha
        simpa using h₂ a ha
    have hidx : deleteOriginalIndex (l₁ ++ tau :: l₂) tid = l₁.length := by
      refine findIdx_after_prefix _ _ _ _ ?_ ?_
      · intro t ht
        simp [h₁ t ht]
      · simp [htau]
    rw [hopt, hidx, deleteRollback, insertIdx_between]
  · intro todos tid tau b nowIso h
    rw [toggleRollback, toggleOptimistic, List.map_map]
    refine List.map_congr_left ?_
    intro t ht
    by_cases hid : t.id = some tid
    · have hts := h t ht hid
      subst hts
      cases t
      simp_all [Function.comp]
    · cases t
      simp_all [Function.comp]

/-- Witness for C1 amended on concrete single-task lists. -/
theorem rollback_restores_amended_witness :
    addTodoRollback { mid := some "9" }
        (addTodoOptimistic { mid := some "9" } [{ id := some "a" }]) =
      [{ id := some "a" }] ∧
    updateRollback (updateOptimistic [{ id := some "a", text := "x" }] "a" "y") "a"
        { id := some "a", text := "x" } = [{ id := some "a", text := "x" }] ∧
    deleteRollback (deleteOptimistic [{ id := some "a" }] "a")
        (deleteOriginalIndex [{ id := some "a" }] "a") { id := some "a" } =
      [{ id := some "a" }] ∧
    toggleRollback (toggleOptimistic [{ id := some "a", updatedAt := "t0" }] "a" true "t1")
        "a" false = [{ id := some "a", updatedAt := "t1" }] :=
  ⟨rollback_restores_amended.1 { mid := some "9" } [{ id := some "a" }] (by decide),
   rollback_restores_amended.2.1 [{ id := some "a", text := "x" }] "a" "y"
     { id := some "a", text := "x" } (by decide),
   rollback_restores_amended.2.2.1 [] [] "a" { id := some "a" } rfl
     (by decide) (by decide),
   (rollback_restores_amended.2.2.2.2 [{ id := some "a", updatedAt := "t0" }] "a"
      { id := some "a", updatedAt := "t0" } true "t1" (by decide)).trans (by decide)⟩

/-- C2: when every attempt of a toggle/update/delete call fails and the
error, as re-wrapped by todoService's handleApiError, is classified network
when it reaches the default retry predicate, the wrapper invokes the
underlying operation exactly maxAttempts = 3 times, propagates the last
error, and the two inter-attempt delays are [2000, 4000] ms — non-decreasing
and never exceeding maxDelay = 30000 ms. -/
theorem mutation_retry_network_exhausts_attempts
    (eRaw : Nat → ApiError) (opName : String) (rand : Nat → ℚ)
    (h : ∀ k, getErrorType (some (handleApiError (some (eRaw k)) opName)) = ErrorType.network) :
    (runRetryWrapper toggleRetryConfig (fun e => isRecoverableError (some e))
        (fun k => (Except.error (handleApiError (some (eRaw k)) opName) : Except ApiError Unit))
        rand =
      ⟨Except.error (some (handleApiError (some (eRaw 3)) opName)), 3, [2000, 4000]⟩) ∧
    (runRetryWrapper updateRetryConfig (fun e => isRecoverableError (some e))
        (fun k => (Except.error (handleApiError (some (eRaw k)) opName) : Except ApiError Unit))
        rand =
      ⟨Except.error (some (handleApiError (some (eRaw 3)) opName)), 3, [2000, 4000]⟩) ∧
    (runRetryWrapper deleteRetryConfig (fun e => isRecoverableError (some e))
        (fun k => (Except.error (handleApiError (some (eRaw k)) opName) : Except ApiError Unit))
        rand =
      ⟨Except.error (some (handleApiError (some (eRaw 3)) opName)), 3, [2000, 4000]⟩) ∧
    List.Chain' (· ≤ ·) [(2000 : ℚ), 4000] ∧
    (∀ d ∈ [(2000 : ℚ), 4000], d ≤ 30000) := by
  have hcond : ∀ k,
      isRecoverableError (some (handleApiError (some (eRaw k)) opName)) = true := by
    intro k
    simp [isRecoverableError, h k]
  have hd1 : calculateRetryDelay (handleApiError (some (eRaw 1)) opName) 1
      toggleRetryConfig (rand 1) = 2000 := by
    norm_num [calculateRetryDelay, getRetryDelay, isRecoverableError, h 1, toggleRetryConfig]
  have hd2 : calculateRetryDelay (handleApiError (some (eRaw 2)) opName) 2
      toggleRetryConfig (rand 2) = 4000 := by
    norm_num [calculateRetryDelay, getRetryDelay, isRecoverableError, h 2, toggleRetryConfig]
  simp only [toggleRetryConfig] at hd1 hd2
  have hrun : runRetryWrapper toggleRetryConfig (fun e => isRecoverableError (some e))
      (fun k => (Except.error (handleApiError (some (eRaw k)) opName) : Except ApiError Unit))
      rand =
      ⟨Except.error (some (handleApiError (some (eRaw 3)) opName)), 3, [2000, 4000]⟩ := by
    simp [runRetryWrapper, retryGo, toggleRetryConfig, hcond 1, hcond 2, hcond 3, hd1, hd2]
  exact ⟨hrun, hrun, hrun, by norm_num, by norm_num⟩

/-- Witness for C2: a raw axios-style network failure (code NETWORK_ERROR,
message "Network Error") stays network-classified after the handleApiError
re-wrap, and the wrapped toggle call makes exactly 3 attempts. -/
theorem mutation_retry_network_exhausts_attempts_witness :
    runRetryWrapper toggleRetryConfig (fun e => isRecoverableError (some e))
        (fun k => (Except.error
          (handleApiError
            (some ((fun _ => ({ code := some "NETWORK_ERROR", message := some "Network Error" } :
              ApiError)) k)) "TOGGLE_COMPLETE") : Except ApiError Unit))
        (fun _ => 0) =
      ⟨Except.error (some (handleApiError
          (some ({ code := some "NETWORK_ERROR", message := some "Network Error" } : ApiError))
          "TOGGLE_COMPLETE")), 3, [2000, 4000]⟩ :=
  (mutation_retry_network_exhausts_attempts
    (fun _ => { code := some "NETWORK_ERROR", message := some "Network Error" })
    "TOGGLE_COMPLETE" (fun _ => 0)
    (fun _ =>
      (by decide :
        getErrorType (some (handleApiError
          (some ({ code := some "NETWORK_ERROR", message := some "Network Error" } : ApiError))
          "TOGGLE_COMPLETE")) = ErrorType.network))).1

/-- C4: when a toggle/update/delete call fails and the re-wrapped error is
classified validation, authentication, or permission at the retry
predicate, the wrapper invokes the underlying operation exactly once,
sleeps no inter-attempt delay, and propagates the error. -/
theorem nonretryable_error_single_attempt
    (eRaw : ApiError) (opName : String) (rand : Nat → ℚ)
    (h : getErrorType (some (handleApiError (some eRaw) opName)) = ErrorType.validation ∨
         getErrorType (some (handleApiError (some eRaw) opName)) = ErrorType.authentication ∨
         getErrorType (some (handleApiError (some eRaw) opName)) = ErrorType.permission) :
    (runRetryWrapper toggleRetryConfig (fun e => isRecoverableError (some e))
        (fun _ => (Except.error (handleApiError (some eRaw) opName) : Except ApiError Unit))
        rand =
      ⟨Except.error (some (handleApiError (some eRaw) opName)), 1, []⟩) ∧
    (runRetryWrapper updateRetryConfig (fun e => isRecoverableError (some e))
        (fun _ => (Except.error (handleApiError (some eRaw) opName) : Except ApiError Unit))
        rand =
      ⟨Except.error (some (handleApiError (some eRaw) opName)), 1, []⟩) ∧
    (runRetryWrapper deleteRetryConfig (fun e => isRecoverableError (some e))
        (fun _ => (Except.error (handleApiError (some eRaw) opName) : Except ApiError Unit))
        rand =
      ⟨Except.error (some (handleApiError (some eRaw) opName)), 1, []⟩) := by
  have hcond : isRecoverableError (some (handleApiError (some eRaw) opName)) = false := by
    rcases h with h1 | h1 | h1 <;> simp [isRecoverableError, h1]
  have hrun : runRetryWrapper toggleRetryConfig (fun e => isRecoverableError (some e))
      (fun _ => (Except.error (handleApiError (some eRaw) opName) : Except ApiError Unit))
      rand =
      ⟨Except.error (some (handleApiError (some eRaw) opName)), 1, []⟩ := by
    simp [runRetryWrapper, retryGo, toggleRetryConfig, hcond]
  exact ⟨hrun, hrun, hrun⟩

/-- Witness for C4: a 400 response re-wrapped for UPDATE_TODO is classified
validation and the wrapped call runs exactly once. -/
theorem nonretryable_error_single_attempt_witness :
    runRetryWrapper updateRetryConfig (fun e => isRecoverableError (some e))
        (fun _ => (Except.error
          (handleApiError (some ({ response := some { status := 400 } } : ApiError))
            "UPDATE_TODO") : Except ApiError Unit))
        (fun _ => 0) =
      ⟨Except.error (some (handleApiError
          (some ({ response := some { status := 400 } } : ApiError)) "UPDATE_TODO")), 1, []⟩ :=
  (nonretryable_error_single_attempt { response := some { status := 400 } }
    "UPDATE_TODO" (fun _ => 0) (Or.inl (by decide))).2.1

end Taskify
